import Mathlib

/-!
Verification of the scatter-anti viewport-driven rendering pipeline.

This file gives a shallow embedding, over exact rational arithmetic, of the
core pipeline components of the scatter-anti library: the view transform and
zoom-to-point logic of the GPU layer, the viewport bounds calculator, the
query scheduler (generation counter and throttle) of the data layer, the
instance-buffer builder and its capacity policy, the hover scaling of the GPU
layer, and the hover hit-testing / callback dispatch of the label layer.
JavaScript numbers are modelled as rationals; square-root distance
comparisons are carried out on squared distances (the square root is
monotone on nonnegative reals, so the comparisons agree); object references
(used by the label layer to compare hovered points) are modelled as
allocation identifiers; buffer creation/destruction/writes are modelled as
an explicit event trace.
-/

namespace ScatterAnti

/-- RGBA color with components in [0,1], as in `types.ts` (`ColorRGBA`). -/
structure ColorRGBA where
  r : ℚ
  g : ℚ
  b : ℚ
  a : ℚ
  deriving DecidableEq, Repr

/-- A point record as reconstructed by `DataLayer.findNearestPoint`. -/
structure Point where
  x : ℚ
  y : ℚ
  color : ColorRGBA
  size : ℚ
  deriving DecidableEq, Repr

/-- Output of `DataLayer.processDataToGpuFormat`: a flat 7-floats-per-point
instance array, the actual row count, and the configured visible point
limit. -/
structure ProcessedData where
  instanceData : List ℚ
  rowCount : ℕ
  visiblePointLimit : ℕ
  deriving DecidableEq, Repr

/-- World-space rectangle produced by `DataLayer.calculateVisibleBounds`. -/
structure VisibleBounds where
  minX : ℚ
  maxX : ℚ
  minY : ℚ
  maxY : ℚ
  deriving DecidableEq, Repr

/-- Columnar query result, as consumed by `processDataToGpuFormat`:
an ordered column-name list, a per-column accessor (absent columns give
`none`, matching the `columnData.get(name)` map lookup), and a row count. -/
structure ParquetData where
  columns : List String
  columnData : String → Option (ℕ → ℚ)
  rowCount : ℕ

/-- The configuration of `DataLayer` that the instance-buffer builder reads:
`visiblePointLimit` plus the user-supplied size and color lambdas.  A row is
passed to the lambdas as a list of optional cell values (a missing column
yields `none`, matching `allColumns[j]?.get(i)`). -/
structure DataLayerConfig where
  visiblePointLimit : ℕ
  pointSizeLambda : List (Option ℚ) → List String → ℚ
  pointColorLambda : List (Option ℚ) → List String → ColorRGBA

/-- `DataLayer.VIEWPORT_MARGIN = 0.5`: 50% extra on each side. -/
def VIEWPORT_MARGIN : ℚ := 1 / 2

/-- `DataLayer.calculateVisibleBounds(zoom, panX, panY, aspectRatio)`:
expand the unit clip square by the margin, then invert the view transform
(the view matrix scales X by zoom/aspectRatio and Y by zoom). -/
def calculateVisibleBounds (zoom panX panY aspectRatio : ℚ) : VisibleBounds :=
  let clipMin := -1 - VIEWPORT_MARGIN
  let clipMax := 1 + VIEWPORT_MARGIN
  let minX := (clipMin - panX) * aspectRatio / zoom
  let maxX := (clipMax - panX) * aspectRatio / zoom
  let minY := (clipMin - panY) / zoom
  let maxY := (clipMax - panY) / zoom
  ⟨minX, maxX, minY, maxY⟩

/-- `DataLayer.processDataToGpuFormat(data)`: convert columnar data to the
flat `[x, y, r, g, b, a, size]` per-point instance layout.  Rows are built
by reading every column at the row index (missing columns give `none`);
x and y are read directly from the reserved `x`/`y` columns.  When either
reserved column is absent the empty result is returned, as in the source. -/
def processDataToGpuFormat (cfg : DataLayerConfig) (data : ParquetData) : ProcessedData :=
  match data.columnData "x", data.columnData "y" with
  | some xColumn, some yColumn =>
      let instanceData := (List.range data.rowCount).flatMap fun i =>
        let point : List (Option ℚ) := data.columns.map fun name =>
          (data.columnData name).map fun column => column i
        let color := cfg.pointColorLambda point data.columns
        [xColumn i, yColumn i, color.r, color.g, color.b, color.a,
          cfg.pointSizeLambda point data.columns]
      ⟨instanceData, data.rowCount, cfg.visiblePointLimit⟩
  | _, _ => ⟨[], 0, cfg.visiblePointLimit⟩

/-! ### GPU layer: transform state, hover scaling, instance buffer -/

/-- One entry of the GPU-side buffer event trace emitted by the model of
`GpuLayer.updateInstanceBuffer` / `GpuLayer.setHoveredPoint`.  Buffers are
identified by allocation number. -/
inductive BufEvent where
  | create (id size : ℕ)
  | destroy (id : ℕ)
  | write (id : ℕ) (data : List ℚ)
  deriving DecidableEq, Repr

/-- The mutable fields of `GpuLayer` relevant to the transform, the hover
emphasis and the instance buffer.  `instanceBuffer` is the identifier of the
currently allocated GPU buffer (`none` before the first allocation), and
`nextBufferId` is the next fresh allocation identifier. -/
structure GpuLayer where
  zoom : ℚ
  panX : ℚ
  panY : ℚ
  canvasWidth : ℚ
  canvasHeight : ℚ
  rowCount : ℕ
  hoveredPointIndex : Option ℤ
  hoverScaleFactor : ℚ
  baseInstanceData : List ℚ
  currentInstanceData : List ℚ
  instanceBufferCapacity : ℕ
  instanceBuffer : Option ℕ
  nextBufferId : ℕ

/-- Zoom clamping used by `setZoom` and `zoomToPoint`:
`Math.max(0.1, Math.min(10, z))`. -/
def clampZoom (z : ℚ) : ℚ := max (1 / 10) (min 10 z)

/-- `GpuLayer.zoomToPoint(newZoom, screenX, screenY)`: compute the world
point under the screen position with the old transform, update the zoom
(clamped), then recompute the pan so the world point maps back to the same
screen position. -/
def zoomToPoint (g : GpuLayer) (newZoom screenX screenY : ℚ) : GpuLayer :=
  let clampedZoom := clampZoom newZoom
  let aspectRatio := g.canvasWidth / g.canvasHeight
  let ndcX := (screenX / g.canvasWidth) * 2 - 1
  let ndcY := -((screenY / g.canvasHeight) * 2 - 1)
  let worldXBefore := (ndcX - g.panX) * aspectRatio / g.zoom
  let worldYBefore := (ndcY - g.panY) / g.zoom
  { g with
      zoom := clampedZoom
      panX := ndcX - worldXBefore * clampedZoom / aspectRatio
      panY := ndcY - worldYBefore * clampedZoom }

/-- Screen-to-world X, the inverse transform used by `zoomToPoint` and
`findNearestPoint`: NDC conversion then inversion of the view matrix. -/
def screenToWorldX (zoom panX aspectRatio canvasWidth sx : ℚ) : ℚ :=
  (((sx / canvasWidth) * 2 - 1) - panX) * aspectRatio / zoom

/-- Screen-to-world Y (with the Y axis flip of screen coordinates). -/
def screenToWorldY (zoom panY canvasHeight sy : ℚ) : ℚ :=
  ((-((sy / canvasHeight) * 2 - 1)) - panY) / zoom

/-- World-to-screen X: the forward view transform (`clip = world * zoom /
aspectRatio + panX`) followed by the clip-to-screen mapping used by the
label layer (`screenX = (clipX + 1) * 0.5 * width`). -/
def worldToScreenX (zoom panX aspectRatio canvasWidth wx : ℚ) : ℚ :=
  ((wx * (zoom / aspectRatio) + panX) + 1) * (1 / 2) * canvasWidth

/-- World-to-screen Y: forward view transform (`clip = world * zoom + panY`)
followed by the Y-flipped clip-to-screen mapping
(`screenY = (1 - clipY) * 0.5 * height`). -/
def worldToScreenY (zoom panY canvasHeight wy : ℚ) : ℚ :=
  (1 - (wy * zoom + panY)) * (1 / 2) * canvasHeight

/-! ### Claims C6 and C4 -/

/-- Claim C6: `calculateVisibleBounds` expands the unit clip square by the
0.5 margin on each side before inverting to world space, giving
`minX = (-1.5 - panX) * aspectRatio / zoom`,
`maxX = (1.5 - panX) * aspectRatio / zoom`, `minY = (-1.5 - panY) / zoom`,
`maxY = (1.5 - panY) / zoom`; in particular for `zoom = 1`, `pan = (0,0)`,
`aspectRatio = 1` it returns exactly `(-1.5, 1.5, -1.5, 1.5)`. -/
theorem calculateVisibleBounds_margin_formula :
    (∀ zoom panX panY aspectRatio : ℚ,
      calculateVisibleBounds zoom panX panY aspectRatio =
        ⟨(-(3 / 2) - panX) * aspectRatio / zoom, (3 / 2 - panX) * aspectRatio / zoom,
          (-(3 / 2) - panY) / zoom, (3 / 2 - panY) / zoom⟩) ∧
    calculateVisibleBounds 1 0 0 1 = ⟨-(3 / 2), 3 / 2, -(3 / 2), 3 / 2⟩ := by
  constructor
  · intro zoom panX panY aspectRatio
    simp only [calculateVisibleBounds, VIEWPORT_MARGIN, VisibleBounds.mk.injEq]
    norm_num
  · simp only [calculateVisibleBounds, VIEWPORT_MARGIN, VisibleBounds.mk.injEq]
    norm_num

/-- Claim C4: for every prior transform state with positive zoom and a
positive-size canvas, and every target zoom and screen position, after
`zoomToPoint(newZoom, sx, sy)` the world point that was under `(sx, sy)`
under the old transform maps back exactly to `(sx, sy)` under the new
transform (the rational model is exact, so up-to-floating-point-tolerance
holds a fortiori). -/
theorem zoomToPoint_stability (g : GpuLayer) (newZoom sx sy : ℚ)
    (hz : 0 < g.zoom) (hw : 0 < g.canvasWidth) (hh : 0 < g.canvasHeight) :
    worldToScreenX (zoomToPoint g newZoom sx sy).zoom (zoomToPoint g newZoom sx sy).panX
        (g.canvasWidth / g.canvasHeight) g.canvasWidth
        (screenToWorldX g.zoom g.panX (g.canvasWidth / g.canvasHeight) g.canvasWidth sx) = sx ∧
    worldToScreenY (zoomToPoint g newZoom sx sy).zoom (zoomToPoint g newZoom sx sy).panY
        g.canvasHeight (screenToWorldY g.zoom g.panY g.canvasHeight sy) = sy := by
  have hw0 : g.canvasWidth ≠ 0 := ne_of_gt hw
  have hh0 : g.canvasHeight ≠ 0 := ne_of_gt hh
  constructor
  · simp only [zoomToPoint, worldToScreenX, screenToWorldX]
    field_simp
    ring
  · simp only [zoomToPoint, worldToScreenY, screenToWorldY]
    field_simp
    ring

/-- `GpuLayer.applyHoverScaling()`: if a point is hovered and its index is
in `[0, rowCount)`, multiply the size entry (offset 6 of the point's 7-float
record) of the working copy by the hover scale factor; otherwise leave the
working copy untouched.  (The `!this.currentInstanceData` guard of the
source is vacuous here since the model always carries a list.) -/
def applyHoverScaling (g : GpuLayer) : List ℚ :=
  match g.hoveredPointIndex with
  | none => g.currentInstanceData
  | some i =>
      if i < 0 ∨ (g.rowCount : ℤ) ≤ i then g.currentInstanceData
      else
        let sizeIndex := i.toNat * 7 + 6
        g.currentInstanceData.set sizeIndex
          (g.currentInstanceData.getD sizeIndex 0 * g.hoverScaleFactor)

/-- `GpuLayer.updateInstanceBuffer(data)`: store the row count, keep a base
copy and a working copy of the incoming instance data, re-apply hover
scaling, reallocate the GPU buffer only when `visiblePointLimit` differs
from the current capacity (creating the replacement before destroying the
old buffer), and finally write the working copy to the buffer.  Returns the
new state together with the emitted buffer event trace. -/
def updateInstanceBuffer (g : GpuLayer) (data : ProcessedData) : GpuLayer × List BufEvent :=
  let g1 := { g with
      rowCount := data.rowCount
      baseInstanceData := data.instanceData
      currentInstanceData := data.instanceData }
  let g2 := { g1 with currentInstanceData := applyHoverScaling g1 }
  let step :=
    if g2.instanceBufferCapacity ≠ data.visiblePointLimit then
      let oldBuffer := g2.instanceBuffer
      let newId := g2.nextBufferId
      -- buffer sized for the full visiblePointLimit (7 floats * 4 bytes per point)
      let g3 := { g2 with
          instanceBuffer := some newId
          nextBufferId := newId + 1
          instanceBufferCapacity := data.visiblePointLimit }
      (g3, BufEvent.create newId (data.visiblePointLimit * 7 * 4) ::
        (match oldBuffer with
          | some o => [BufEvent.destroy o]
          | none => []))
    else (g2, [])
  match step.1.instanceBuffer with
  | some b => (step.1, step.2 ++ [BufEvent.write b step.1.currentInstanceData])
  | none => step

/-- `GpuLayer.setHoveredPoint(index, scaleFactor)`: record the hover index
and factor; when an instance buffer is resident, restore the working copy
from the unscaled base data, apply hover scaling to the new hovered point,
and upload the working copy. -/
def setHoveredPoint (g : GpuLayer) (index : Option ℤ) (scaleFactor : ℚ) : GpuLayer × List BufEvent :=
  let g1 := { g with hoveredPointIndex := index, hoverScaleFactor := scaleFactor }
  match g1.instanceBuffer with
  | some b =>
      let g2 := { g1 with currentInstanceData := g1.baseInstanceData }
      let g3 := { g2 with currentInstanceData := applyHoverScaling g2 }
      (g3, [BufEvent.write b g3.currentInstanceData])
  | none => (g1, [])

/-- The working copy produced by a single `setHoveredPoint` call on resident
base data: the base list with one size entry scaled when the index is in
range, the base list unchanged otherwise. -/
def hoverScaledData (base : List ℚ) (rowCount : ℕ) (index : Option ℤ) (factor : ℚ) : List ℚ :=
  match index with
  | none => base
  | some i =>
      if i < 0 ∨ (rowCount : ℤ) ≤ i then base
      else base.set (i.toNat * 7 + 6) (base.getD (i.toNat * 7 + 6) 0 * factor)

/-- Fold a sequence of `setHoveredPoint` calls over a GPU-layer state,
keeping only the state. -/
def applyHoverCalls (g : GpuLayer) (calls : List (Option ℤ × ℚ)) : GpuLayer :=
  calls.foldl (fun s c => (setHoveredPoint s c.1 c.2).1) g

theorem setHoveredPoint_preserves (g : GpuLayer) (index : Option ℤ) (f : ℚ) :
    (setHoveredPoint g index f).1.baseInstanceData = g.baseInstanceData ∧
    (setHoveredPoint g index f).1.rowCount = g.rowCount ∧
    (setHoveredPoint g index f).1.instanceBuffer = g.instanceBuffer := by
  unfold setHoveredPoint
  cases hb : g.instanceBuffer <;> simp [hb]

theorem setHoveredPoint_current (g : GpuLayer) (index : Option ℤ) (f : ℚ) (b : ℕ)
    (hb : g.instanceBuffer = some b) :
    (setHoveredPoint g index f).1.currentInstanceData =
      hoverScaledData g.baseInstanceData g.rowCount index f := by
  unfold setHoveredPoint hoverScaledData applyHoverScaling
  cases index <;> simp [hb]

theorem applyHoverCalls_preserves (g : GpuLayer) (calls : List (Option ℤ × ℚ)) :
    (applyHoverCalls g calls).baseInstanceData = g.baseInstanceData ∧
    (applyHoverCalls g calls).rowCount = g.rowCount ∧
    (applyHoverCalls g calls).instanceBuffer = g.instanceBuffer := by
  induction calls generalizing g with
  | nil => exact ⟨rfl, rfl, rfl⟩
  | cons c rest ih =>
      have hstep := setHoveredPoint_preserves g c.1 c.2
      have htail := ih ((setHoveredPoint g c.1 c.2).1)
      simpa only [applyHoverCalls, List.foldl_cons, hstep.1, hstep.2.1, hstep.2.2]
        using htail

/-- A concrete GPU-layer state used by witnesses: zoom 2, pan (1/4, -1/3),
a 200 x 100 canvas and a two-point resident buffer. -/
def gpuExample : GpuLayer where
  zoom := 2
  panX := 1 / 4
  panY := -(1 / 3)
  canvasWidth := 200
  canvasHeight := 100
  rowCount := 2
  hoveredPointIndex := none
  hoverScaleFactor := 13 / 10
  baseInstanceData := [0, 0, 1, 1, 1, 1, 3, 1, 1, 0, 0, 1, 1, 5]
  currentInstanceData := [0, 0, 1, 1, 1, 1, 3, 1, 1, 0, 0, 1, 1, 5]
  instanceBufferCapacity := 2
  instanceBuffer := some 0
  nextBufferId := 1

/-- Claim C7: for any resident instance data and any sequence of
`setHoveredPoint` calls, the canonical base data is never mutated, and after
the final call the working copy (which is what is uploaded) equals the base
data with exactly the last hovered point's size entry scaled by the last
call's factor — so repeated hover changes never compound, and re-hovering a
point yields the same size as the first time. -/
theorem setHoveredPoint_non_compounding (g : GpuLayer) (calls : List (Option ℤ × ℚ))
    (index : Option ℤ) (factor : ℚ) (b : ℕ)
    (hb : g.instanceBuffer = some b)
    (hlen : g.baseInstanceData.length = g.rowCount * 7) :
    (applyHoverCalls g (calls ++ [(index, factor)])).baseInstanceData = g.baseInstanceData ∧
    (applyHoverCalls g (calls ++ [(index, factor)])).currentInstanceData =
      hoverScaledData g.baseInstanceData g.rowCount index factor ∧
    (∀ i : ℤ, index = some i → 0 ≤ i → i < (g.rowCount : ℤ) →
      (applyHoverCalls g (calls ++ [(index, factor)])).currentInstanceData.get?
          (i.toNat * 7 + 6) =
        some (g.baseInstanceData.getD (i.toNat * 7 + 6) 0 * factor)) := by
  have hmid := applyHoverCalls_preserves g calls
  have hsnoc : applyHoverCalls g (calls ++ [(index, factor)]) =
      (setHoveredPoint (applyHoverCalls g calls) index factor).1 := by
    simp [applyHoverCalls, List.foldl_append]
  have hlast := setHoveredPoint_preserves (applyHoverCalls g calls) index factor
  have hcur := setHoveredPoint_current (applyHoverCalls g calls) index factor b
    (by rw [hmid.2.2, hb])
  refine ⟨by rw [hsnoc, hlast.1, hmid.1], ?_, ?_⟩
  · rw [hsnoc, hcur, hmid.1, hmid.2.1]
  · intro i hidx h0 hlt
    have hix : i.toNat * 7 + 6 < g.baseInstanceData.length := by
      rw [hlen]
      have : i.toNat < g.rowCount := by omega
      omega
    rw [hsnoc, hcur, hmid.1, hmid.2.1]
    unfold hoverScaledData
    rw [hidx]
    have hguard : ¬(i < 0 ∨ (g.rowCount : ℤ) ≤ i) := by omega
    simp only [hguard, if_false]
    rw [List.get?_eq_getElem?, List.getElem?_set_self]
    exact hix

/-- Witness for C7: `setHoveredPoint_non_compounding` on `gpuExample` with
the call sequence hover-0, hover-1, hover-0 (the A, B, A scenario): the
final size of point 0 is its base size 3 times the single factor 13/10. -/
theorem setHoveredPoint_non_compounding_witness :
    (applyHoverCalls gpuExample
        [(some 0, 13 / 10), (some 1, 13 / 10), (some 0, 13 / 10)]).baseInstanceData =
      gpuExample.baseInstanceData ∧
    (applyHoverCalls gpuExample
        [(some 0, 13 / 10), (some 1, 13 / 10), (some 0, 13 / 10)]).currentInstanceData =
      hoverScaledData gpuExample.baseInstanceData gpuExample.rowCount (some 0) (13 / 10) ∧
    (∀ i : ℤ, (some 0 : Option ℤ) = some i → 0 ≤ i → i < (gpuExample.rowCount : ℤ) →
      (applyHoverCalls gpuExample
          [(some 0, 13 / 10), (some 1, 13 / 10), (some 0, 13 / 10)]).currentInstanceData.get?
          (i.toNat * 7 + 6) =
        some (gpuExample.baseInstanceData.getD (i.toNat * 7 + 6) 0 * (13 / 10))) :=
  setHoveredPoint_non_compounding gpuExample [(some 0, 13 / 10), (some 1, 13 / 10)]
    (some 0) (13 / 10) 0 rfl (by decide)

/-- Claim C10 (implicit): `setHoveredPoint` with a `null`, negative, or
out-of-range index leaves the working copy exactly equal to the canonical
base data, the working copy always keeps the base data's length (no
out-of-bounds element is ever written), and scaling modifies the copy only
for an index in `[0, rowCount)` — and then only the single size entry. -/
theorem setHoveredPoint_invalid_index_safe (g : GpuLayer) (scaleFactor : ℚ) (b : ℕ)
    (hb : g.instanceBuffer = some b) :
    (setHoveredPoint g none scaleFactor).1.currentInstanceData = g.baseInstanceData ∧
    (∀ i : ℤ, i < 0 ∨ (g.rowCount : ℤ) ≤ i →
      (setHoveredPoint g (some i) scaleFactor).1.currentInstanceData = g.baseInstanceData) ∧
    (∀ index : Option ℤ,
      (setHoveredPoint g index scaleFactor).1.currentInstanceData.length =
        g.baseInstanceData.length) ∧
    (∀ i : ℤ, 0 ≤ i → i < (g.rowCount : ℤ) →
      (setHoveredPoint g (some i) scaleFactor).1.currentInstanceData =
        g.baseInstanceData.set (i.toNat * 7 + 6)
          (g.baseInstanceData.getD (i.toNat * 7 + 6) 0 * scaleFactor)) := by
  refine ⟨?_, ?_, ?_, ?_⟩
  · rw [setHoveredPoint_current g none scaleFactor b hb]
    rfl
  · intro i hi
    rw [setHoveredPoint_current g (some i) scaleFactor b hb]
    unfold hoverScaledData
    simp only [hi, if_true]
  · intro index
    rw [setHoveredPoint_current g index scaleFactor b hb]
    unfold hoverScaledData
    cases index with
    | none => rfl
    | some i =>
        by_cases hg : i < 0 ∨ (g.rowCount : ℤ) ≤ i
        · simp [hg]
        · simp [hg, List.length_set]
  · intro i h0 hlt
    rw [setHoveredPoint_current g (some i) scaleFactor b hb]
    unfold hoverScaledData
    have hguard : ¬(i < 0 ∨ (g.rowCount : ℤ) ≤ i) := by omega
    simp only [hguard, if_false]

/-- Witness for C10: `setHoveredPoint_invalid_index_safe` on the concrete
state `gpuExample` (two resident points, buffer 0 allocated). -/
theorem setHoveredPoint_invalid_index_safe_witness :
    (setHoveredPoint gpuExample none (13 / 10)).1.currentInstanceData =
      gpuExample.baseInstanceData ∧
    (∀ i : ℤ, i < 0 ∨ (gpuExample.rowCount : ℤ) ≤ i →
      (setHoveredPoint gpuExample (some i) (13 / 10)).1.currentInstanceData =
        gpuExample.baseInstanceData) ∧
    (∀ index : Option ℤ,
      (setHoveredPoint gpuExample index (13 / 10)).1.currentInstanceData.length =
        gpuExample.baseInstanceData.length) ∧
    (∀ i : ℤ, 0 ≤ i → i < (gpuExample.rowCount : ℤ) →
      (setHoveredPoint gpuExample (some i) (13 / 10)).1.currentInstanceData =
        gpuExample.baseInstanceData.set (i.toNat * 7 + 6)
          (gpuExample.baseInstanceData.getD (i.toNat * 7 + 6) 0 * (13 / 10))) :=
  setHoveredPoint_invalid_index_safe gpuExample (13 / 10) 0 rfl

/-- Witness for C4: `zoomToPoint_stability` applied to the concrete state
`gpuExample`, target zoom 5 and screen position (30, 40). -/
theorem zoomToPoint_stability_witness :
    worldToScreenX (zoomToPoint gpuExample 5 30 40).zoom (zoomToPoint gpuExample 5 30 40).panX
        (gpuExample.canvasWidth / gpuExample.canvasHeight) gpuExample.canvasWidth
        (screenToWorldX gpuExample.zoom gpuExample.panX
          (gpuExample.canvasWidth / gpuExample.canvasHeight) gpuExample.canvasWidth 30) = 30 ∧
    worldToScreenY (zoomToPoint gpuExample 5 30 40).zoom (zoomToPoint gpuExample 5 30 40).panY
        gpuExample.canvasHeight (screenToWorldY gpuExample.zoom gpuExample.panY
          gpuExample.canvasHeight 40) = 40 :=
  zoomToPoint_stability gpuExample 5 30 40 (by norm_num [gpuExample])
    (by norm_num [gpuExample]) (by norm_num [gpuExample])

/-! ### Claim C3: instance buffer capacity policy -/

/-- An event is a (re)allocation event when it creates or destroys a GPU
buffer; plain writes reuse the existing buffer. -/
def isRealloc : BufEvent → Bool
  | .create _ _ => true
  | .destroy _ => true
  | .write _ _ => false

theorem updateInstanceBuffer_noRealloc (g : GpuLayer) (d : ProcessedData)
    (h : g.instanceBufferCapacity = d.visiblePointLimit) :
    (updateInstanceBuffer g d).1.instanceBufferCapacity = g.instanceBufferCapacity ∧
    (updateInstanceBuffer g d).1.instanceBuffer = g.instanceBuffer ∧
    ∀ e ∈ (updateInstanceBuffer g d).2, isRealloc e = false := by
  unfold updateInstanceBuffer
  cases hb : g.instanceBuffer <;> simp [h, hb, isRealloc]

theorem updateInstanceBuffer_realloc (g : GpuLayer) (d : ProcessedData)
    (h : g.instanceBufferCapacity ≠ d.visiblePointLimit) :
    (updateInstanceBuffer g d).1.instanceBufferCapacity = d.visiblePointLimit ∧
    (updateInstanceBuffer g d).1.instanceBuffer = some g.nextBufferId ∧
    ∃ w : List ℚ,
      (updateInstanceBuffer g d).2 =
        BufEvent.create g.nextBufferId (d.visiblePointLimit * 7 * 4) ::
          ((match g.instanceBuffer with
            | some o => [BufEvent.destroy o]
            | none => ([] : List BufEvent)) ++ [BufEvent.write g.nextBufferId w]) := by
  unfold updateInstanceBuffer
  cases hb : g.instanceBuffer <;> simp [h, hb]

/-- Claim C3: the GPU instance storage is allocated with capacity
`visiblePointLimit` points (7 floats, 4 bytes each, per point), not the
actual row count; with a fixed limit `L` already resident, two successive
accepted results of arbitrary row counts cause no reallocation and the
capacity stays `L`; reallocation happens exactly when the incoming result's
`visiblePointLimit` differs from the current capacity; and on reallocation
the old buffer is destroyed only after the replacement has been created
(the destroy event is always preceded by a create event in the trace).
The builder (`processDataToGpuFormat`) stamps the configured limit on every
result it produces. -/
theorem instanceBuffer_capacity_policy
    (cfg : DataLayerConfig) (pd : ParquetData) (g : GpuLayer) (d d1 d2 : ProcessedData) (L : ℕ)
    (hcap : g.instanceBufferCapacity = L)
    (h1 : d1.visiblePointLimit = L) (h2 : d2.visiblePointLimit = L) :
    (processDataToGpuFormat cfg pd).visiblePointLimit = cfg.visiblePointLimit ∧
    ((updateInstanceBuffer g d1).1.instanceBufferCapacity = L ∧
      (updateInstanceBuffer (updateInstanceBuffer g d1).1 d2).1.instanceBufferCapacity = L ∧
      (updateInstanceBuffer g d1).1.instanceBuffer = g.instanceBuffer ∧
      (updateInstanceBuffer (updateInstanceBuffer g d1).1 d2).1.instanceBuffer =
        g.instanceBuffer ∧
      (∀ e ∈ (updateInstanceBuffer g d1).2, isRealloc e = false) ∧
      (∀ e ∈ (updateInstanceBuffer (updateInstanceBuffer g d1).1 d2).2,
        isRealloc e = false)) ∧
    ((∃ e ∈ (updateInstanceBuffer g d).2, isRealloc e = true) ↔
      d.visiblePointLimit ≠ g.instanceBufferCapacity) ∧
    (updateInstanceBuffer g d).1.instanceBufferCapacity = d.visiblePointLimit ∧
    (∀ idc sz, BufEvent.create idc sz ∈ (updateInstanceBuffer g d).2 →
      sz = d.visiblePointLimit * 7 * 4) ∧
    (∀ i o, (updateInstanceBuffer g d).2.get? i = some (BufEvent.destroy o) →
      ∃ j, j < i ∧ ∃ idc sz,
        (updateInstanceBuffer g d).2.get? j = some (BufEvent.create idc sz)) := by
  have hfirst := updateInstanceBuffer_noRealloc g d1 (hcap.trans h1.symm)
  have hsecond := updateInstanceBuffer_noRealloc (updateInstanceBuffer g d1).1 d2
    ((hfirst.1.trans hcap).trans h2.symm)
  refine ⟨?_, ⟨?_, ?_, hfirst.2.1, ?_, hfirst.2.2, hsecond.2.2⟩, ?_, ?_, ?_, ?_⟩
  · unfold processDataToGpuFormat
    cases pd.columnData "x" <;> cases pd.columnData "y" <;> simp
  · exact hfirst.1.trans hcap
  · exact hsecond.1.trans (hfirst.1.trans hcap)
  · exact hsecond.2.1.trans hfirst.2.1
  · constructor
    · rintro ⟨e, hmem, hre⟩
      by_contra hne
      have := (updateInstanceBuffer_noRealloc g d hne.symm).2.2 e hmem
      rw [this] at hre
      exact Bool.false_ne_true hre
    · intro hne
      obtain ⟨-, -, w, hev⟩ := updateInstanceBuffer_realloc g d (Ne.symm hne)
      exact ⟨BufEvent.create g.nextBufferId (d.visiblePointLimit * 7 * 4),
        by rw [hev]; exact List.mem_cons_self _ _, rfl⟩
  · by_cases hc : g.instanceBufferCapacity = d.visiblePointLimit
    · exact (updateInstanceBuffer_noRealloc g d hc).1.trans hc
    · exact (updateInstanceBuffer_realloc g d hc).1
  · intro idc sz hmem
    by_cases hc : g.instanceBufferCapacity = d.visiblePointLimit
    · have := (updateInstanceBuffer_noRealloc g d hc).2.2 _ hmem
      simp [isRealloc] at this
    · obtain ⟨-, -, w, hev⟩ := updateInstanceBuffer_realloc g d hc
      rw [hev] at hmem
      rcases List.mem_cons.mp hmem with heq | htail
      · cases heq
        rfl
      · exfalso
        cases hb : g.instanceBuffer <;> rw [hb] at htail <;> simp at htail
  · intro i o hget
    by_cases hc : g.instanceBufferCapacity = d.visiblePointLimit
    · exfalso
      have hmem := List.get?_mem hget
      have := (updateInstanceBuffer_noRealloc g d hc).2.2 _ hmem
      simp [isRealloc] at this
    · obtain ⟨-, -, w, hev⟩ := updateInstanceBuffer_realloc g d hc
      match i with
      | 0 =>
          rw [hev] at hget
          simp at hget
      | i + 1 =>
          refine ⟨0, Nat.succ_pos i, g.nextBufferId, d.visiblePointLimit * 7 * 4, ?_⟩
          rw [hev]
          rfl

/-- A concrete builder configuration for witnesses: limit 2, constant size 3
and a constant translucent blue color. -/
def cfgExample : DataLayerConfig where
  visiblePointLimit := 2
  pointSizeLambda := fun _ _ => 3
  pointColorLambda := fun _ _ => ⟨3 / 10, 3 / 10, 8 / 10, 3 / 10⟩

/-- A concrete one-row columnar result with reserved columns x and y. -/
def pdExample : ParquetData where
  columns := ["x", "y"]
  columnData := fun name =>
    if name = "x" then some fun _ => 1
    else if name = "y" then some fun _ => 2
    else none
  rowCount := 1

/-- A one-row accepted result with limit 2 (matching `gpuExample`). -/
def procExample1 : ProcessedData := ⟨[0, 0, 0, 0, 0, 1, 3], 1, 2⟩

/-- A two-row accepted result with limit 2 (matching `gpuExample`). -/
def procExample2 : ProcessedData := ⟨[0, 0, 0, 0, 0, 1, 3, 1, 1, 0, 0, 1, 1, 5], 2, 2⟩

/-- A one-row accepted result with limit 5 (forcing reallocation). -/
def procExampleBig : ProcessedData := ⟨[0, 0, 0, 0, 0, 1, 3], 1, 5⟩

/-- Witness for C3: `instanceBuffer_capacity_policy` on `gpuExample`
(capacity 2, buffer 0 resident) with results of row counts 1 and 2 at the
fixed limit 2, and a limit-5 result for the reallocation direction. -/
theorem instanceBuffer_capacity_policy_witness :
    gpuExample.instanceBufferCapacity = 2 ∧
    ((∃ e ∈ (updateInstanceBuffer gpuExample procExampleBig).2, isRealloc e = true) ↔
      procExampleBig.visiblePointLimit ≠ gpuExample.instanceBufferCapacity) ∧
    (updateInstanceBuffer gpuExample procExample1).1.instanceBufferCapacity = 2 ∧
    (updateInstanceBuffer (updateInstanceBuffer gpuExample procExample1).1
        procExample2).1.instanceBufferCapacity = 2 :=
  ⟨rfl,
    (instanceBuffer_capacity_policy cfgExample pdExample gpuExample procExampleBig
      procExample1 procExample2 2 rfl rfl rfl).2.2.1,
    (instanceBuffer_capacity_policy cfgExample pdExample gpuExample procExampleBig
      procExample1 procExample2 2 rfl rfl rfl).2.1.1,
    (instanceBuffer_capacity_policy cfgExample pdExample gpuExample procExampleBig
      procExample1 procExample2 2 rfl rfl rfl).2.1.2.1⟩

/-! ### Query completion: generation gating and failure handling
(Claims C1 and C9) -/

/-- The outcome of the awaited `runQuery` call inside
`DataLayer.updateVisiblePoints`: the promise rejected (`threw`), the
repository was absent so the optional call yielded `undefined` (`missing`),
or a columnar result arrived. -/
inductive QueryOutcome where
  | threw
  | missing
  | ok (data : ParquetData)

/-- The `DataLayer` state read and written by the completion path of
`updateVisiblePoints`: the current query generation and the resident
processed data used for hover detection and display. -/
structure DataLayerState where
  currentQueryId : ℕ
  currentVisibleData : Option ProcessedData

/-- The completion path of `DataLayer.updateVisiblePoints` (the code after
the awaited `runQuery`), as a total function: a rejection is caught and
swallowed (`try`/`catch`); a missing or empty result is silently dropped;
a stale generation (`queryId !== currentQueryId`) is discarded; otherwise
the processed data is stored and handed to the callback.  The second
component is the callback argument (`none` means the callback is not
invoked). -/
def updateVisiblePointsResult (cfg : DataLayerConfig) (s : DataLayerState)
    (queryId : ℕ) (res : QueryOutcome) : DataLayerState × Option ProcessedData :=
  match res with
  | .threw => (s, none)
  | .missing =>
      if queryId ≠ s.currentQueryId then (s, none)
      else (s, none)
  | .ok data =>
      if queryId ≠ s.currentQueryId then (s, none)
      else if data.rowCount = 0 then (s, none)
      else
        let processedData := processDataToGpuFormat cfg data
        if queryId = s.currentQueryId then
          ({ s with currentVisibleData := some processedData }, some processedData)
        else (s, none)

/-- One event of the scheduler trace: a `scheduleVisiblePointsUpdate` call
(which increments the generation counter and captures it as the new query's
id) or the completion of the in-flight query with a given captured id. -/
inductive SchedulerEvent where
  | schedule
  | complete (queryId : ℕ) (res : QueryOutcome)

/-- State transition of the data layer for one scheduler event. -/
def schedStepState (cfg : DataLayerConfig) (s : DataLayerState) :
    SchedulerEvent → DataLayerState
  | .schedule => { s with currentQueryId := s.currentQueryId + 1 }
  | .complete queryId res => (updateVisiblePointsResult cfg s queryId res).1

/-- State of the data layer after a trace of scheduler events. -/
def schedRunState (cfg : DataLayerConfig) (s : DataLayerState)
    (es : List SchedulerEvent) : DataLayerState :=
  es.foldl (schedStepState cfg) s

/-- The results applied (handed to the callback) along a trace of scheduler
events, tagged with the generation that produced them. -/
def appliedResults (cfg : DataLayerConfig) :
    DataLayerState → List SchedulerEvent → List (ℕ × ProcessedData)
  | _, [] => []
  | s, .schedule :: es => appliedResults cfg (schedStepState cfg s .schedule) es
  | s, .complete queryId res :: es =>
      (match (updateVisiblePointsResult cfg s queryId res).2 with
        | some p => [(queryId, p)]
        | none => []) ++
        appliedResults cfg (schedStepState cfg s (.complete queryId res)) es

theorem updateVisiblePointsResult_stale (cfg : DataLayerConfig) (s : DataLayerState)
    (queryId : ℕ) (res : QueryOutcome) (h : queryId ≠ s.currentQueryId) :
    updateVisiblePointsResult cfg s queryId res = (s, none) := by
  cases res <;> simp [updateVisiblePointsResult, h]

theorem schedStepState_mono (cfg : DataLayerConfig) (s : DataLayerState)
    (e : SchedulerEvent) : s.currentQueryId ≤ (schedStepState cfg s e).currentQueryId := by
  cases e with
  | schedule => exact Nat.le_succ _
  | complete queryId res =>
      unfold schedStepState updateVisiblePointsResult
      cases res with
      | threw => exact le_refl _
      | missing =>
          by_cases h : queryId = s.currentQueryId <;> simp [h]
      | ok data =>
          by_cases h : queryId = s.currentQueryId <;>
            by_cases hr : data.rowCount = 0 <;> simp [h, hr]

theorem schedRunState_mono (cfg : DataLayerConfig) (s : DataLayerState)
    (es : List SchedulerEvent) :
    s.currentQueryId ≤ (schedRunState cfg s es).currentQueryId := by
  induction es generalizing s with
  | nil => exact le_refl _
  | cons e es ih =>
      exact le_trans (schedStepState_mono cfg s e) (ih (schedStepState cfg s e))

theorem appliedResults_append (cfg : DataLayerConfig) (s : DataLayerState)
    (es1 es2 : List SchedulerEvent) :
    appliedResults cfg s (es1 ++ es2) =
      appliedResults cfg s es1 ++ appliedResults cfg (schedRunState cfg s es1) es2 := by
  induction es1 generalizing s with
  | nil => rfl
  | cons e es ih =>
      cases e with
      | schedule => simp [appliedResults, schedRunState, ih]
      | complete queryId res => simp [appliedResults, schedRunState, ih]

/-- Claim C1: (gate) a query's result is handed to the callback only if its
captured generation equals `currentQueryId` at the moment of completion;
(consequence) in every trace in which a further `scheduleVisiblePointsUpdate`
call occurs after the one that captured generation `queryId`, the later
completion of generation `queryId` applies nothing — results follow
last-request-wins order regardless of completion order. -/
theorem query_generation_gating (cfg : DataLayerConfig) :
    (∀ (s : DataLayerState) (queryId : ℕ) (res : QueryOutcome),
      (updateVisiblePointsResult cfg s queryId res).2.isSome →
        queryId = s.currentQueryId) ∧
    (∀ (s0 : DataLayerState) (es1 es2 : List SchedulerEvent) (queryId : ℕ)
      (res : QueryOutcome),
      queryId ≤ (schedRunState cfg s0 es1).currentQueryId →
      appliedResults cfg s0
          (es1 ++ SchedulerEvent.schedule :: es2 ++ [SchedulerEvent.complete queryId res]) =
        appliedResults cfg s0 (es1 ++ SchedulerEvent.schedule :: es2)) := by
  constructor
  · intro s queryId res hsome
    by_contra hne
    rw [updateVisiblePointsResult_stale cfg s queryId res hne] at hsome
    simp at hsome
  · intro s0 es1 es2 queryId res hle
    have hassoc : es1 ++ SchedulerEvent.schedule :: es2 ++ [SchedulerEvent.complete queryId res] =
        (es1 ++ SchedulerEvent.schedule :: es2) ++ [SchedulerEvent.complete queryId res] := by
      simp
    rw [hassoc, appliedResults_append]
    have hmid : (schedRunState cfg s0 es1).currentQueryId + 1 ≤
        (schedRunState cfg s0 (es1 ++ SchedulerEvent.schedule :: es2)).currentQueryId := by
      have hsplit : schedRunState cfg s0 (es1 ++ SchedulerEvent.schedule :: es2) =
          schedRunState cfg
            (schedStepState cfg (schedRunState cfg s0 es1) SchedulerEvent.schedule) es2 := by
        simp [schedRunState, List.foldl_append]
      rw [hsplit]
      exact schedRunState_mono cfg
        (schedStepState cfg (schedRunState cfg s0 es1) SchedulerEvent.schedule) es2
    have hstale : queryId ≠
        (schedRunState cfg s0 (es1 ++ SchedulerEvent.schedule :: es2)).currentQueryId := by
      omega
    rw [List.append_right_eq_self]
    simp [appliedResults,
      updateVisiblePointsResult_stale cfg _ queryId res hstale]

/-- Witness for C1: `query_generation_gating` instantiated with the example
configuration; completing generation 1 after a second schedule call leaves
the applied-results log unchanged, and the gate premise holds at a concrete
fresh completion. -/
theorem query_generation_gating_witness :
    appliedResults cfgExample ⟨0, none⟩
        ([SchedulerEvent.schedule] ++ SchedulerEvent.schedule :: [] ++
          [SchedulerEvent.complete 1 (QueryOutcome.ok pdExample)]) =
      appliedResults cfgExample ⟨0, none⟩
        ([SchedulerEvent.schedule] ++ SchedulerEvent.schedule :: []) :=
  (query_generation_gating cfgExample).2 ⟨0, none⟩ [SchedulerEvent.schedule] [] 1
    (QueryOutcome.ok pdExample) (Nat.le_refl 1)

/-- Claim C9: if the scheduled query throws, returns `undefined`, or returns
a zero-row result, the update is silently dropped: the callback is not
invoked and the data-layer state (in particular the resident
`currentVisibleData`) is exactly unchanged.  `updateVisiblePointsResult` is
a total function, which embeds the fact that the `try`/`catch` lets no
exception propagate out of `updateVisiblePoints`. -/
theorem updateVisiblePoints_failure_dropped (cfg : DataLayerConfig)
    (s : DataLayerState) (queryId : ℕ) (res : QueryOutcome)
    (hfail : res = QueryOutcome.threw ∨ res = QueryOutcome.missing ∨
      ∃ d, res = QueryOutcome.ok d ∧ d.rowCount = 0) :
    updateVisiblePointsResult cfg s queryId res = (s, none) := by
  rcases hfail with h | h | ⟨d, h, hrow⟩
  · rw [h]
    rfl
  · rw [h]
    unfold updateVisiblePointsResult
    by_cases hq : queryId ≠ s.currentQueryId <;> simp [hq]
  · rw [h]
    unfold updateVisiblePointsResult
    by_cases hq : queryId ≠ s.currentQueryId <;> simp [hq, hrow]

/-- A zero-row columnar result. -/
def pdEmpty : ParquetData where
  columns := ["x", "y"]
  columnData := fun name =>
    if name = "x" then some fun _ => 0
    else if name = "y" then some fun _ => 0
    else none
  rowCount := 0

/-- Witness for C9: `updateVisiblePoints_failure_dropped` at a concrete
state for each failure shape (rejection, undefined result, zero rows). -/
theorem updateVisiblePoints_failure_dropped_witness :
    updateVisiblePointsResult cfgExample ⟨3, none⟩ 3 QueryOutcome.threw = (⟨3, none⟩, none) ∧
    updateVisiblePointsResult cfgExample ⟨3, none⟩ 3 QueryOutcome.missing = (⟨3, none⟩, none) ∧
    updateVisiblePointsResult cfgExample ⟨3, none⟩ 3 (QueryOutcome.ok pdEmpty) =
      (⟨3, none⟩, none) :=
  ⟨updateVisiblePoints_failure_dropped cfgExample ⟨3, none⟩ 3 QueryOutcome.threw
      (Or.inl rfl),
    updateVisiblePoints_failure_dropped cfgExample ⟨3, none⟩ 3 QueryOutcome.missing
      (Or.inr (Or.inl rfl)),
    updateVisiblePoints_failure_dropped cfgExample ⟨3, none⟩ 3 (QueryOutcome.ok pdEmpty)
      (Or.inr (Or.inr ⟨pdEmpty, rfl, rfl⟩))⟩

/-! ### Claim C2: query throttling
The throttle logic of `DataLayer.scheduleVisiblePointsUpdate` is modelled
as a timed state machine.  The scheduler never inspects the viewport
parameters, so they are kept abstract (a type parameter `P`).  The single
pending `setTimeout` handle is a `throttleTimer` entry carrying its fire
time `lastQueryTime + interval`, the captured query id and the parameters;
the event loop is modelled by firing a due timer before delivering any
later call, and by firing the surviving timer after the last call
(`runScheduler`).  Executions of `updateVisiblePoints` are logged in
`executed` as (time, query id, parameters); per the source, executing sets
`lastQueryTime` to the current time. -/

/-- Scheduler-side state of `DataLayer`: generation counter,
`latestRequestedViewport.queryId`, `lastQueryTime`, the pending throttle
timer and the log of executed queries. -/
structure SchedulerState (P : Type) where
  currentQueryId : ℕ
  latestQueryId : Option ℕ
  lastQueryTime : ℚ
  throttleTimer : Option (ℚ × ℕ × P)
  executed : List (ℚ × ℕ × P)
  deriving DecidableEq, Repr

/-- `queryThrottleInterval = 300` ms between queries. -/
def queryThrottleInterval : ℚ := 300

/-- Execute `updateVisiblePoints` at time `t`: update `lastQueryTime` and
log the executed query. -/
def execQuery {P : Type} (s : SchedulerState P) (t : ℚ) (queryId : ℕ) (p : P) :
    SchedulerState P :=
  { s with lastQueryTime := t, executed := s.executed ++ [(t, queryId, p)] }

/-- The `setTimeout` callback: clear the handle, then execute only if the
captured query id is still the latest requested one. -/
def fireThrottleTimer {P : Type} (s : SchedulerState P) : SchedulerState P :=
  match s.throttleTimer with
  | none => s
  | some (fireTime, queryId, p) =>
      let s1 := { s with throttleTimer := none }
      if s1.latestQueryId = some queryId then execQuery s1 fireTime queryId p else s1

/-- Event-loop behaviour: a pending timer whose fire time has been reached
fires before a later event is delivered. -/
def fireTimerIfDue {P : Type} (s : SchedulerState P) (t : ℚ) : SchedulerState P :=
  match s.throttleTimer with
  | some (fireTime, _, _) => if fireTime ≤ t then fireThrottleTimer s else s
  | none => s

/-- `DataLayer.scheduleVisiblePointsUpdate` at time `t` with parameters `p`:
increment the generation and record the latest request, cancel any pending
timer, then either execute immediately (if at least the throttle interval
has elapsed since `lastQueryTime`) or schedule execution at
`lastQueryTime + interval` (the remaining wait). -/
def scheduleVisiblePointsUpdate {P : Type} (s : SchedulerState P) (t : ℚ) (p : P) :
    SchedulerState P :=
  let s0 := fireTimerIfDue s t
  let queryId := s0.currentQueryId + 1
  let s1 := { s0 with
      currentQueryId := queryId
      latestQueryId := some queryId
      throttleTimer := none }
  if queryThrottleInterval ≤ t - s1.lastQueryTime then execQuery s1 t queryId p
  else { s1 with throttleTimer := some (s1.lastQueryTime + queryThrottleInterval, queryId, p) }

/-- Deliver a sequence of timed calls (times nondecreasing in intended use)
and then let the surviving timer, if any, fire. -/
def runScheduler {P : Type} (s : SchedulerState P) (calls : List (ℚ × P)) :
    SchedulerState P :=
  fireThrottleTimer (calls.foldl (fun s c => scheduleVisiblePointsUpdate s c.1 c.2) s)

/-- The scheduler state while a throttled request is pending: generation
`c` captured by the pending timer, which will fire at
`lastQueryTime + interval`. -/
def throttledState {P : Type} (L0 : ℚ) (E : List (ℚ × ℕ × P)) (c : ℕ) (p : P) :
    SchedulerState P :=
  ⟨c, some c, L0, some (L0 + queryThrottleInterval, c, p), E⟩

/-- The parameters of the last call of the batch (`p` if the batch is
empty). -/
def lastParam {P : Type} (p : P) : List (ℚ × P) → P
  | [] => p
  | x :: xs => lastParam x.2 xs

theorem lastParam_eq_getLast {P : Type} (x : ℚ × P) (xs : List (ℚ × P)) :
    lastParam x.2 xs = ((x :: xs).getLast (List.cons_ne_nil x xs)).2 := by
  induction xs generalizing x with
  | nil => rfl
  | cons y ys ih => exact ih y

theorem schedule_from_clean {P : Type} (s : SchedulerState P) (t : ℚ) (p : P)
    (htimer : s.throttleTimer = none) (ht : t < s.lastQueryTime + queryThrottleInterval) :
    scheduleVisiblePointsUpdate s t p =
      throttledState s.lastQueryTime s.executed (s.currentQueryId + 1) p := by
  have hnoexec : ¬ queryThrottleInterval ≤ t - s.lastQueryTime := by
    intro hc
    have : s.lastQueryTime + queryThrottleInterval ≤ t := by linarith
    linarith
  unfold scheduleVisiblePointsUpdate fireTimerIfDue
  rw [htimer]
  simp only [hnoexec, if_false]
  rfl

theorem schedule_from_throttled {P : Type} (L0 : ℚ) (E : List (ℚ × ℕ × P)) (c : ℕ)
    (p : P) (t : ℚ) (pnew : P) (ht : t < L0 + queryThrottleInterval) :
    scheduleVisiblePointsUpdate (throttledState L0 E c p) t pnew =
      throttledState L0 E (c + 1) pnew := by
  have hnotdue : ¬ L0 + queryThrottleInterval ≤ t := by linarith
  have hnoexec : ¬ queryThrottleInterval ≤ t - L0 := by
    intro hc
    exact hnotdue (by linarith)
  unfold scheduleVisiblePointsUpdate fireTimerIfDue throttledState
  simp only [hnotdue, if_false, hnoexec]

theorem foldl_schedule_throttled {P : Type} (rest : List (ℚ × P)) :
    ∀ (L0 : ℚ) (E : List (ℚ × ℕ × P)) (c : ℕ) (p : P),
      (∀ x ∈ rest, x.1 < L0 + queryThrottleInterval) →
      rest.foldl (fun s c => scheduleVisiblePointsUpdate s c.1 c.2)
          (throttledState L0 E c p) =
        throttledState L0 E (c + rest.length) (lastParam p rest) := by
  induction rest with
  | nil =>
      intro L0 E c p _
      rfl
  | cons x xs ih =>
      intro L0 E c p hwin
      rw [List.foldl_cons, schedule_from_throttled L0 E c p x.1 x.2
        (hwin x (List.mem_cons_self x xs))]
      rw [ih L0 E (c + 1) x.2 (fun y hy => hwin y (List.mem_cons_of_mem x hy))]
      simp only [lastParam, List.length_cons]
      congr 1
      omega

theorem fireThrottleTimer_throttled {P : Type} (L0 : ℚ) (E : List (ℚ × ℕ × P))
    (c : ℕ) (p : P) :
    fireThrottleTimer (throttledState L0 E c p) =
      ⟨c, some c, L0 + queryThrottleInterval, none,
        E ++ [(L0 + queryThrottleInterval, c, p)]⟩ := by
  unfold fireThrottleTimer throttledState execQuery
  simp

/-- Claim C2 (amended): if every one of the N ≥ 1
`scheduleVisiblePointsUpdate` calls arrives within the 300 ms throttle
interval following the previously executed query (`lastQueryTime`), with no
timer pending initially, then exactly one query is executed — at
`lastQueryTime + 300`, carrying the generation of the last call and the
viewport parameters of the last call.  (As originally stated the claim is
false: when the first call arrives at least 300 ms after `lastQueryTime`
it executes immediately with its own parameters, and the last call's query
still executes when the timer fires — see the counterexample.) -/
theorem throttle_coalesces_within_interval {P : Type} (s0 : SchedulerState P)
    (calls : List (ℚ × P)) (hne : calls ≠ [])
    (htimer : s0.throttleTimer = none)
    (hwin : ∀ x ∈ calls, s0.lastQueryTime ≤ x.1 ∧
      x.1 < s0.lastQueryTime + queryThrottleInterval) :
    (runScheduler s0 calls).executed =
      s0.executed ++ [(s0.lastQueryTime + queryThrottleInterval,
        s0.currentQueryId + calls.length, (calls.getLast hne).2)] := by
  match calls, hne with
  | x :: xs, _ =>
      unfold runScheduler
      rw [List.foldl_cons, schedule_from_clean s0 x.1 x.2 htimer
        (hwin x (List.mem_cons_self x xs)).2]
      rw [foldl_schedule_throttled xs s0.lastQueryTime s0.executed
        (s0.currentQueryId + 1) x.2
        (fun y hy => (hwin y (List.mem_cons_of_mem x hy)).2)]
      rw [lastParam_eq_getLast x xs, fireThrottleTimer_throttled]
      simp only [List.length_cons]
      have harith : s0.currentQueryId + 1 + xs.length =
          s0.currentQueryId + (xs.length + 1) := by omega
      rw [harith]

/-- Witness for the amended C2: three calls at times 100, 200, 250 after a
query executed at time 0 — one query executes, at time 300, with the last
call's generation 3 and parameters 3. -/
theorem throttle_coalesces_within_interval_witness :
    (runScheduler (⟨0, none, 0, none, []⟩ : SchedulerState ℕ)
        [(100, 1), (200, 2), (250, 3)]).executed = [(300, 3, 3)] := by
  have h := throttle_coalesces_within_interval
    (⟨0, none, 0, none, []⟩ : SchedulerState ℕ) [(100, 1), (200, 2), (250, 3)]
    (by simp) rfl (by intro x hx; fin_cases hx <;> constructor <;> norm_num [queryThrottleInterval])
  rw [h]
  norm_num [queryThrottleInterval, List.getLast]

/-- Counterexample to C2 as stated: with the last query executed at time 0,
two calls at times 1000 and 1100 fall in a 100 ms window (shorter than the
300 ms throttle interval), yet two queries are executed — one immediately
at time 1000 with the first call's parameters, and one at time 1300 (timer
fire) with the second call's parameters — instead of exactly one using the
last call's parameters. -/
theorem throttle_single_query_counterexample :
    (runScheduler (⟨0, none, 0, none, []⟩ : SchedulerState ℕ)
        [(1000, 1), (1100, 2)]).executed = [(1000, 1, 1), (1300, 2, 2)] ∧
    (runScheduler (⟨0, none, 0, none, []⟩ : SchedulerState ℕ)
        [(1000, 1), (1100, 2)]).executed.length ≠ 1 := by
  have h : (runScheduler (⟨0, none, 0, none, []⟩ : SchedulerState ℕ)
      [(1000, 1), (1100, 2)]).executed = [(1000, 1, 1), (1300, 2, 2)] := by
    norm_num [runScheduler, scheduleVisiblePointsUpdate, fireTimerIfDue,
      fireThrottleTimer, execQuery, queryThrottleInterval]
  exact ⟨h, by rw [h]; simp⟩

/-! ### Label layer: hover hit-testing and callback dispatch (C5 and C8)
`LabelLayer`'s mousemove handler resolves a label hit first
(`getLabelAtPosition`), performs point hit-testing only when no label was
hit, and fires the point-hover callback when the freshly resolved hit
differs from the stored one by object reference or by index.
`findNearestPoint` builds a fresh `Point` object on every call; object
references are modelled by allocation identifiers (`nextRef` supplies a
fresh one per constructed `Point`), so reference equality is identifier
equality.  Square-root distance comparisons are modelled on squared
distances (`sqrt d ≤ t  ↔  0 ≤ t ∧ d ≤ t * t` and `sqrt` is strictly
monotone on nonnegatives, so `<` on distances matches `<` on squares);
the initial `nearestDistance = Infinity` is the `none` accumulator. -/

/-- One entry of `renderedLabelBounds`: the label's identity (labels are
stable objects from `this.labels`, so reference equality is identity
equality) and its screen-space bounding box. -/
structure LabelBound where
  labelId : ℕ
  x : ℚ
  y : ℚ
  width : ℚ
  height : ℚ
  deriving DecidableEq, Repr

/-- `LabelLayer.hitPadding = 10` pixels around text for hit detection. -/
def hitPadding : ℚ := 10

/-- `LabelLayer.getLabelAtPosition(x, y)`: first rendered label whose padded
bounding box contains the position. -/
def getLabelAtPosition : List LabelBound → ℚ → ℚ → Option ℕ
  | [], _, _ => none
  | bound :: rest, x, y =>
      if bound.x - hitPadding ≤ x ∧ x ≤ bound.x + bound.width + hitPadding ∧
          bound.y - hitPadding ≤ y ∧ y ≤ bound.y + bound.height + hitPadding
      then some bound.labelId
      else getLabelAtPosition rest x y

/-- The linear scan of `DataLayer.findNearestPoint`, on squared distances:
keep the index and squared distance of the closest point so far that is
within the threshold. -/
def nearestScan (data : List ℚ) (worldX worldY thresholdWorld : ℚ)
    (rowCount : ℕ) : Option (ℕ × ℚ) :=
  (List.range rowCount).foldl
    (fun best i =>
      let pointX := data.getD (i * 7) 0
      let pointY := data.getD (i * 7 + 1) 0
      let dx := pointX - worldX
      let dy := pointY - worldY
      let distSq := dx * dx + dy * dy
      let closer : Bool := match best with
        | none => true
        | some (_, bestSq) => decide (distSq < bestSq)
      let withinThreshold : Bool :=
        decide (0 ≤ thresholdWorld) && decide (distSq ≤ thresholdWorld * thresholdWorld)
      if closer && withinThreshold then some (i, distSq) else best)
    none

/-- `DataLayer.findNearestPoint(screenX, screenY, ...)`: invert the view
transform, convert the pixel threshold to world space, scan the resident
points, and reconstruct a fresh `Point` object for the winner. -/
def findNearestPoint (vd : Option ProcessedData)
    (screenX screenY canvasWidth canvasHeight zoom panX panY aspectRatio
      thresholdPixels : ℚ) : Option (Point × ℕ) :=
  match vd with
  | none => none
  | some d =>
      if d.rowCount = 0 then none
      else
        let clipX := (screenX / canvasWidth) * 2 - 1
        let clipY := -((screenY / canvasHeight) * 2 - 1)
        let worldX := (clipX - panX) * aspectRatio / zoom
        let worldY := (clipY - panY) / zoom
        let thresholdClip := (thresholdPixels / canvasWidth) * 2
        let thresholdWorld := thresholdClip * aspectRatio / zoom
        match nearestScan d.instanceData worldX worldY thresholdWorld d.rowCount with
        | none => none
        | some (i, _) =>
            some (⟨d.instanceData.getD (i * 7) 0, d.instanceData.getD (i * 7 + 1) 0,
              ⟨d.instanceData.getD (i * 7 + 2) 0, d.instanceData.getD (i * 7 + 3) 0,
                d.instanceData.getD (i * 7 + 4) 0, d.instanceData.getD (i * 7 + 5) 0⟩,
              d.instanceData.getD (i * 7 + 6) 0⟩, i)

/-- The point hit resolved by the mousemove handler: point hit-testing runs
only when no label was hit (labels take priority). -/
def resolvedPointHit (vd : Option ProcessedData) (bounds : List LabelBound)
    (canvasWidth canvasHeight zoom panX panY x y : ℚ) : Option (Point × ℕ) :=
  if getLabelAtPosition bounds x y = none then
    findNearestPoint vd x y canvasWidth canvasHeight zoom panX panY
      (canvasWidth / canvasHeight) 10
  else none

/-- Hover-related state of `LabelLayer`.  `hoveredPointRef` is the
allocation identifier of the stored `hoveredPoint` object (`none` when no
point is hovered); `pointHoverCalls` logs every invocation of the
user-facing `onPointHover` callback with its argument. -/
structure LabelLayerState where
  renderedLabelBounds : List LabelBound
  hoveredLabel : Option ℕ
  hoveredPointRef : Option ℕ
  hoveredPoint : Option Point
  hoveredPointIndex : Option ℕ
  nextRef : ℕ
  pointHoverCalls : List (Option (Point × ℕ))
  deriving DecidableEq, Repr

/-- The mousemove handler of `LabelLayer.setupEventListeners`: resolve the
label hit, resolve the point hit only if no label was hit, update the label
hover state on label-identity change, then update the point hover state and
fire the callback when the new point hit differs from the stored one by
reference or by index. -/
def handleMouseMove (vd : Option ProcessedData)
    (canvasWidth canvasHeight zoom panX panY : ℚ) (s : LabelLayerState)
    (x y : ℚ) : LabelLayerState :=
  let labelAtPosition := getLabelAtPosition s.renderedLabelBounds x y
  let pointHit := resolvedPointHit vd s.renderedLabelBounds canvasWidth canvasHeight
    zoom panX panY x y
  -- the fresh Point object constructed by findNearestPoint gets a fresh
  -- allocation identifier
  let newRef : Option ℕ := pointHit.map fun _ => s.nextRef
  let nextRef : ℕ := if pointHit.isSome then s.nextRef + 1 else s.nextRef
  let s1 := if labelAtPosition ≠ s.hoveredLabel
    then { s with hoveredLabel := labelAtPosition } else s
  let newHoveredPoint := pointHit.map Prod.fst
  let newHoveredIndex := pointHit.map Prod.snd
  if newRef ≠ s1.hoveredPointRef ∨ newHoveredIndex ≠ s1.hoveredPointIndex then
    { s1 with
        hoveredPointRef := newRef
        hoveredPoint := newHoveredPoint
        hoveredPointIndex := newHoveredIndex
        nextRef := nextRef
        pointHoverCalls := s1.pointHoverCalls ++ [pointHit] }
  else { s1 with nextRef := nextRef }

/-- Well-formedness of the modelled reference state: the stored reference,
point and index are simultaneously absent or present, and any stored
allocation identifier is older than the next fresh one. -/
def LabelLayerState.wf (s : LabelLayerState) : Prop :=
  (s.hoveredPointRef = none ↔ s.hoveredPoint = none) ∧
  (s.hoveredPointRef = none ↔ s.hoveredPointIndex = none) ∧
  ∀ r, s.hoveredPointRef = some r → r < s.nextRef

theorem label_update_collapse (s : LabelLayerState) (l : Option ℕ) :
    (if l ≠ s.hoveredLabel then { s with hoveredLabel := l } else s) =
      { s with hoveredLabel := l } := by
  split_ifs with h
  · rfl
  · rw [not_ne_iff] at h
    subst h
    rfl

theorem ite_label (l h : Option ℕ) : (if l ≠ h then l else h) = l := by
  split_ifs with hne
  · rfl
  · rw [not_ne_iff] at hne
    exact hne.symm

/-- The condition under which the mousemove handler fires the point-hover
callback: the fresh hit differs from the stored one by reference or by
index. -/
def hoverCallbackFires (s : LabelLayerState) (hit : Option (Point × ℕ)) : Prop :=
  (hit.map fun _ => s.nextRef) ≠ s.hoveredPointRef ∨
    hit.map Prod.snd ≠ s.hoveredPointIndex

instance (s : LabelLayerState) (hit : Option (Point × ℕ)) :
    Decidable (hoverCallbackFires s hit) := by
  unfold hoverCallbackFires
  infer_instance

theorem handleMouseMove_proj (vd : Option ProcessedData)
    (canvasWidth canvasHeight zoom panX panY : ℚ) (s : LabelLayerState) (x y : ℚ) :
    (handleMouseMove vd canvasWidth canvasHeight zoom panX panY s x y).renderedLabelBounds =
        s.renderedLabelBounds ∧
    (handleMouseMove vd canvasWidth canvasHeight zoom panX panY s x y).hoveredLabel =
        getLabelAtPosition s.renderedLabelBounds x y ∧
    (handleMouseMove vd canvasWidth canvasHeight zoom panX panY s x y).nextRef =
        (if (resolvedPointHit vd s.renderedLabelBounds canvasWidth canvasHeight
            zoom panX panY x y).isSome then s.nextRef + 1 else s.nextRef) ∧
    (handleMouseMove vd canvasWidth canvasHeight zoom panX panY s x y).pointHoverCalls =
        (if hoverCallbackFires s (resolvedPointHit vd s.renderedLabelBounds canvasWidth
            canvasHeight zoom panX panY x y)
          then s.pointHoverCalls ++ [resolvedPointHit vd s.renderedLabelBounds canvasWidth
            canvasHeight zoom panX panY x y]
          else s.pointHoverCalls) ∧
    (handleMouseMove vd canvasWidth canvasHeight zoom panX panY s x y).hoveredPointRef =
        (if hoverCallbackFires s (resolvedPointHit vd s.renderedLabelBounds canvasWidth
            canvasHeight zoom panX panY x y)
          then (resolvedPointHit vd s.renderedLabelBounds canvasWidth canvasHeight
            zoom panX panY x y).map fun _ => s.nextRef
          else s.hoveredPointRef) ∧
    (handleMouseMove vd canvasWidth canvasHeight zoom panX panY s x y).hoveredPoint =
        (if hoverCallbackFires s (resolvedPointHit vd s.renderedLabelBounds canvasWidth
            canvasHeight zoom panX panY x y)
          then (resolvedPointHit vd s.renderedLabelBounds canvasWidth canvasHeight
            zoom panX panY x y).map Prod.fst
          else s.hoveredPoint) ∧
    (handleMouseMove vd canvasWidth canvasHeight zoom panX panY s x y).hoveredPointIndex =
        (if hoverCallbackFires s (resolvedPointHit vd s.renderedLabelBounds canvasWidth
            canvasHeight zoom panX panY x y)
          then (resolvedPointHit vd s.renderedLabelBounds canvasWidth canvasHeight
            zoom panX panY x y).map Prod.snd
          else s.hoveredPointIndex) := by
  simp only [handleMouseMove, hoverCallbackFires,
    apply_ite LabelLayerState.renderedLabelBounds,
    apply_ite LabelLayerState.hoveredLabel,
    apply_ite LabelLayerState.hoveredPointRef,
    apply_ite LabelLayerState.hoveredPoint,
    apply_ite LabelLayerState.hoveredPointIndex,
    apply_ite LabelLayerState.nextRef,
    apply_ite LabelLayerState.pointHoverCalls,
    ite_self, ite_label]
  exact ⟨trivial, trivial, trivial, trivial, trivial, trivial, trivial⟩

theorem hoverCallbackFires_iff (s : LabelLayerState) (hit : Option (Point × ℕ))
    (hwf : s.wf) :
    hoverCallbackFires s hit ↔ (hit.isSome ∨ s.hoveredPointIndex ≠ none) := by
  obtain ⟨hwf1, hwf2, hwf3⟩ := hwf
  cases hit with
  | none =>
      simp only [hoverCallbackFires, Option.map_none', Option.isSome_none,
        Bool.false_eq_true, false_or, ne_eq]
      constructor
      · rintro (h | h)
        · exact fun hi => h ((hwf2.mpr hi).symm)
        · exact fun hi => h hi.symm
      · exact fun h => Or.inr (fun he => h he.symm)
  | some pr =>
      have hne : ¬ (some s.nextRef : Option ℕ) = s.hoveredPointRef := by
        cases href : s.hoveredPointRef with
        | none => simp
        | some r =>
            have hr := hwf3 r href
            simp only [Option.some.injEq]
            omega
      simp [hoverCallbackFires, hne]

/-- Claim C8: on a pointer-move where a rendered label's padded bounding
box contains the pointer, the resolved hover state is the label and never
the point — point hit-testing is suppressed for the event, so the hovered
point is `none` even when some point's hit circle contains the pointer
(hypothesis `hpoint`). -/
theorem label_hover_priority (vd : Option ProcessedData)
    (canvasWidth canvasHeight zoom panX panY : ℚ) (s : LabelLayerState)
    (x y : ℚ) (lid : ℕ) (hwf : s.wf)
    (hlabel : getLabelAtPosition s.renderedLabelBounds x y = some lid)
    (_hpoint : (findNearestPoint vd x y canvasWidth canvasHeight zoom panX panY
      (canvasWidth / canvasHeight) 10).isSome) :
    (handleMouseMove vd canvasWidth canvasHeight zoom panX panY s x y).hoveredLabel =
      some lid ∧
    (handleMouseMove vd canvasWidth canvasHeight zoom panX panY s x y).hoveredPoint =
      none ∧
    (handleMouseMove vd canvasWidth canvasHeight zoom panX panY s x y).hoveredPointIndex =
      none := by
  obtain ⟨hwf1, hwf2, hwf3⟩ := hwf
  have hhit : resolvedPointHit vd s.renderedLabelBounds canvasWidth canvasHeight
      zoom panX panY x y = none := by
    unfold resolvedPointHit
    rw [hlabel]
    simp
  simp only [handleMouseMove, hhit, hlabel, label_update_collapse, Option.map_none',
    Option.isSome_none, Bool.false_eq_true, if_false]
  split_ifs with hfire
  · exact ⟨rfl, rfl, rfl⟩
  · rw [not_or, not_ne_iff, not_ne_iff] at hfire
    refine ⟨rfl, ?_, ?_⟩
    · simp only []
      exact (hwf1.mp hfire.1.symm)
    · simp only []
      exact (hwf2.mp hfire.1.symm)

/-- Claim C5 (amended): the point-hover callback does not re-fire while
successive pointer-moves keep resolving to no point; but the callback fires
on every pointer-move that resolves to some point — even the same point as
before — because `findNearestPoint` constructs a fresh `Point` object per
call and the change check compares object references.  Precisely: the
callback fires exactly when the move resolves to a point or a point was
hovered before the move; well-formedness of the reference state is
preserved. -/
theorem point_hover_callback_characterization (vd : Option ProcessedData)
    (canvasWidth canvasHeight zoom panX panY : ℚ) (s : LabelLayerState)
    (x y : ℚ) (hwf : s.wf) :
    ((handleMouseMove vd canvasWidth canvasHeight zoom panX panY s x y).pointHoverCalls =
      if (resolvedPointHit vd s.renderedLabelBounds canvasWidth canvasHeight
            zoom panX panY x y).isSome ∨ s.hoveredPointIndex ≠ none
      then s.pointHoverCalls ++
        [resolvedPointHit vd s.renderedLabelBounds canvasWidth canvasHeight
          zoom panX panY x y]
      else s.pointHoverCalls) ∧
    (handleMouseMove vd canvasWidth canvasHeight zoom panX panY s x y).wf := by
  obtain ⟨hbounds, hlabel, hnext, hcalls, href, hpt, hidx⟩ :=
    handleMouseMove_proj vd canvasWidth canvasHeight zoom panX panY s x y
  constructor
  · rw [hcalls]
    simp only [hoverCallbackFires_iff s _ hwf]
  · by_cases hF : hoverCallbackFires s (resolvedPointHit vd s.renderedLabelBounds
      canvasWidth canvasHeight zoom panX panY x y)
    · cases hhit : resolvedPointHit vd s.renderedLabelBounds canvasWidth canvasHeight
        zoom panX panY x y with
      | none =>
          rw [hhit] at href hpt hidx hnext hF
          refine ⟨?_, ?_, ?_⟩
          · rw [href, hpt]
            simp [hF]
          · rw [href, hidx]
            simp [hF]
          · intro r hr
            rw [href] at hr
            simp [hF] at hr
      | some pr =>
          rw [hhit] at href hpt hidx hnext hF
          refine ⟨?_, ?_, ?_⟩
          · rw [href, hpt]
            simp [hF]
          · rw [href, hidx]
            simp [hF]
          · intro r hr
            rw [href] at hr
            rw [hnext]
            simp [hF] at hr
            simp
            omega
    · have hnofire := hF
      rw [hoverCallbackFires_iff s _ hwf] at hnofire
      push_neg at hnofire
      obtain ⟨hsome, hidxnone⟩ := hnofire
      have hhit : resolvedPointHit vd s.renderedLabelBounds canvasWidth canvasHeight
          zoom panX panY x y = none := by
        cases hh : resolvedPointHit vd s.renderedLabelBounds canvasWidth canvasHeight
            zoom panX panY x y with
        | none => rfl
        | some pr =>
            rw [hh] at hsome
            simp at hsome
      rw [hhit] at href hpt hidx hnext hF
      obtain ⟨hwf1, hwf2, hwf3⟩ := hwf
      refine ⟨?_, ?_, ?_⟩
      · rw [href, hpt]
        simp only [hF, if_false]
        exact hwf1
      · rw [href, hidx]
        simp only [hF, if_false]
        exact hwf2
      · intro r hr
        rw [href] at hr
        rw [hnext]
        simp only [hF, if_false] at hr
        simp only [hhit, Option.isSome_none, Bool.false_eq_true, if_false]
        exact hwf3 r hr

/-- An empty label-layer state: no rendered labels, nothing hovered, no
callback invocations yet. -/
def labelStateExample : LabelLayerState := ⟨[], none, none, none, none, 0, []⟩

/-- A label-layer state with one rendered label (identity 7) whose padded
bounding box contains the screen position (50, 50). -/
def labelStateWithLabel : LabelLayerState :=
  ⟨[⟨7, 40, 40, 20, 20⟩], none, none, none, none, 0, []⟩

theorem findNearestPoint_example :
    findNearestPoint (some procExample1) 50 50 100 100 1 0 0 (100 / 100) 10 =
      some (⟨0, 0, ⟨0, 0, 0, 1⟩, 3⟩, 0) := by
  norm_num [findNearestPoint, nearestScan, procExample1, List.range_succ,
    List.getD, decide_eq_true_eq, Bool.and_eq_true]

theorem resolvedPointHit_example :
    resolvedPointHit (some procExample1) [] 100 100 1 0 0 50 50 =
      some (⟨0, 0, ⟨0, 0, 0, 1⟩, 3⟩, 0) := by
  rw [resolvedPointHit]
  rw [if_pos (by rfl : getLabelAtPosition [] 50 50 = none)]
  exact findNearestPoint_example

/-- Witness for C8: `label_hover_priority` at a concrete pointer position
(50, 50) where both the label box of label 7 and the hit circle of the
resident point at world (0,0) contain the pointer — the label wins and the
hovered point is cleared. -/
theorem label_hover_priority_witness :
    (handleMouseMove (some procExample1) 100 100 1 0 0
        labelStateWithLabel 50 50).hoveredLabel = some 7 ∧
    (handleMouseMove (some procExample1) 100 100 1 0 0
        labelStateWithLabel 50 50).hoveredPoint = none ∧
    (handleMouseMove (some procExample1) 100 100 1 0 0
        labelStateWithLabel 50 50).hoveredPointIndex = none :=
  label_hover_priority (some procExample1) 100 100 1 0 0 labelStateWithLabel 50 50 7
    (by refine ⟨?_, ?_, ?_⟩ <;> simp [labelStateWithLabel])
    (by norm_num [labelStateWithLabel, getLabelAtPosition, hitPadding])
    (by rw [findNearestPoint_example]; rfl)

/-- Witness for the amended C5: `point_hover_callback_characterization` at
the empty state and pointer position (50, 50) over the one-point resident
data. -/
theorem point_hover_callback_characterization_witness :
    ((handleMouseMove (some procExample1) 100 100 1 0 0
        labelStateExample 50 50).pointHoverCalls =
      if (resolvedPointHit (some procExample1) labelStateExample.renderedLabelBounds
            100 100 1 0 0 50 50).isSome ∨ labelStateExample.hoveredPointIndex ≠ none
      then labelStateExample.pointHoverCalls ++
        [resolvedPointHit (some procExample1) labelStateExample.renderedLabelBounds
          100 100 1 0 0 50 50]
      else labelStateExample.pointHoverCalls) ∧
    (handleMouseMove (some procExample1) 100 100 1 0 0
        labelStateExample 50 50).wf :=
  point_hover_callback_characterization (some procExample1) 100 100 1 0 0
    labelStateExample 50 50 (by refine ⟨?_, ?_, ?_⟩ <;> simp [labelStateExample])

/-- Counterexample to C5 as stated: two successive pointer-moves at the
same position (50, 50) both resolve to the same hovered point (index 0),
yet the point-hover callback fires on both moves (two logged invocations) —
`findNearestPoint` returns a fresh `Point` object per call, so the
reference-inequality check is always true when a point is hit. -/
theorem point_hover_callback_counterexample :
    (handleMouseMove (some procExample1) 100 100 1 0 0
        labelStateExample 50 50).hoveredPointIndex = some 0 ∧
    (handleMouseMove (some procExample1) 100 100 1 0 0
        (handleMouseMove (some procExample1) 100 100 1 0 0 labelStateExample 50 50)
        50 50).hoveredPointIndex = some 0 ∧
    (handleMouseMove (some procExample1) 100 100 1 0 0
        (handleMouseMove (some procExample1) 100 100 1 0 0 labelStateExample 50 50)
        50 50).pointHoverCalls.length = 2 := by
  have hhit0 : resolvedPointHit (some procExample1)
      labelStateExample.renderedLabelBounds 100 100 1 0 0 50 50 =
      some (⟨0, 0, ⟨0, 0, 0, 1⟩, 3⟩, 0) := by
    rw [show labelStateExample.renderedLabelBounds = [] from rfl]
    exact resolvedPointHit_example
  obtain ⟨h1b, h1l, h1n, h1c, h1r, h1p, h1i⟩ :=
    handleMouseMove_proj (some procExample1) 100 100 1 0 0 labelStateExample 50 50
  rw [hhit0] at h1n h1c h1r h1p h1i
  have hF1 : hoverCallbackFires labelStateExample
      (some (⟨0, 0, ⟨0, 0, 0, 1⟩, 3⟩, 0)) := by
    left
    simp [labelStateExample]
  rw [if_pos hF1] at h1c h1r h1i
  simp only [Option.isSome_some, eq_self_iff_true, if_true] at h1n
  set s1 := handleMouseMove (some procExample1) 100 100 1 0 0 labelStateExample 50 50
  have hbounds1 : s1.renderedLabelBounds = [] := by
    rw [h1b]
    rfl
  have hhit1 : resolvedPointHit (some procExample1) s1.renderedLabelBounds
      100 100 1 0 0 50 50 = some (⟨0, 0, ⟨0, 0, 0, 1⟩, 3⟩, 0) := by
    rw [hbounds1]
    exact resolvedPointHit_example
  obtain ⟨h2b, h2l, h2n, h2c, h2r, h2p, h2i⟩ :=
    handleMouseMove_proj (some procExample1) 100 100 1 0 0 s1 50 50
  rw [hhit1] at h2n h2c h2r h2p h2i
  have hF2 : hoverCallbackFires s1 (some (⟨0, 0, ⟨0, 0, 0, 1⟩, 3⟩, 0)) := by
    left
    simp only [Option.map_some', ne_eq]
    rw [h1n, h1r]
    simp [labelStateExample]
  rw [if_pos hF2] at h2c h2i
  refine ⟨?_, ?_, ?_⟩
  · rw [h1i]
    rfl
  · rw [h2i]
    rfl
  · rw [h2c, h1c]
    rfl

end ScatterAnti
